import Mathlib

/-!
# Verification of the hieroglyphics converter

Shallow embedding of `src/hieroglyphics.py` (class `HieroglyphicsConverter`).
Python strings are modelled as `List Char`; the three lookup dictionaries are
modelled as association lists with the entries in source order; `dict`
membership / indexing is `List.lookup` (keys are pairwise distinct, so this
agrees with Python's hash-map semantics).

The repository file stores every hieroglyph as a four-character mojibake
sequence: the UTF-8 bytes of the intended code point (for example U+1313F)
were decoded as MacRoman, so each symbol in the file literally is
`[U+F8FF, U+00EC, x, y]`.  The embedding reproduces the file's characters
exactly as stored; the intended original code point is noted in comments.
Likewise the arrow in the f-strings is stored as `[U+201A, U+00DC, U+00ED]`.

`pyLower` models Python `str.lower` character-wise; it is exact on the ASCII
range (the full Unicode case-mapping of non-ASCII letters is outside the
model).  `pyIsSpace` models Python `str.isspace` for a single character: it
is true exactly on the Unicode whitespace set Python uses (category Zs plus
the bidirectional WS/B/S controls), listed explicitly.  `pyStrip` models
`str.strip()` (no argument), which removes that same whitespace set from
both ends.
-/

namespace Hiero

/-- The set of code points Python treats as whitespace (`str.isspace`):
the control characters 09-0D and 1C-1F, space, NEL, NBSP, and the
Unicode Zs spaces. -/
def pyWhitespace : List Nat :=
  [0x09, 0x0a, 0x0b, 0x0c, 0x0d, 0x1c, 0x1d, 0x1e, 0x1f, 0x20,
   0x85, 0xa0, 0x1680,
   0x2000, 0x2001, 0x2002, 0x2003, 0x2004, 0x2005, 0x2006, 0x2007,
   0x2008, 0x2009, 0x200a, 0x2028, 0x2029, 0x202f, 0x205f, 0x3000]

/-- Models Python `char.isspace()` for a single character. -/
def pyIsSpace (c : Char) : Bool :=
  c.toNat ∈ pyWhitespace

/-- Models Python `str.lower` character-wise; exact on ASCII
(A-Z map to a-z, everything else is unchanged). -/
def pyLower (c : Char) : Char :=
  if 0x41 ≤ c.toNat ∧ c.toNat ≤ 0x5a then Char.ofNat (c.toNat + 0x20) else c

/-- Models Python `str.upper` character-wise; exact on ASCII
(a-z map to A-Z, everything else is unchanged). -/
def pyUpper (c : Char) : Char :=
  if 0x61 ≤ c.toNat ∧ c.toNat ≤ 0x7a then Char.ofNat (c.toNat - 0x20) else c

/-- Models Python `text.strip()`: drop leading and trailing whitespace. -/
def pyStrip (s : List Char) : List Char :=
  ((s.dropWhile pyIsSpace).reverse.dropWhile pyIsSpace).reverse

/-- A hieroglyph token exactly as stored in the source file: the mojibake
four-character sequence `U+F8FF U+00EC x y`. -/
def sym (x y : Nat) : List Char :=
  [Char.ofNat 0xf8ff, Char.ofNat 0xec, Char.ofNat x, Char.ofNat y]

/-- The placeholder stroke symbol (intended U+133E4, `Z001`), as stored. -/
def STROKE : List Char := sym 0xe8 0xa7

/-- Source `self.hieroglyphic_map`: the letter table, entries in source order. -/
def hieroglyphic_map : List (Char × List Char) :=
  [('a', sym 0xd1 0xf8),    -- intended U+1313F vulture
   ('b', sym 0xc9 0xc4),    -- intended U+130C0 foot/leg
   ('c', sym 0xe9 0xb0),    -- intended U+133A1 basket
   ('d', sym 0xc7 0xdf),    -- intended U+130A7 hand
   ('e', sym 0xe1 0xe3),    -- intended U+131CB reed
   ('f', sym 0xdc 0xeb),    -- intended U+13191 horned viper
   ('g', sym 0xe9 0xba),    -- intended U+133BC jar stand
   ('h', sym 0xe2 0xee),    -- intended U+13254 shelter
   ('i', sym 0xe1 0xe3),    -- intended U+131CB reed (same as e)
   ('j', sym 0xdc 0x2265),  -- intended U+131B3 quail chick
   ('k', sym 0xe9 0xb0),    -- intended U+133A1 basket (same as c)
   ('l', sym 0xc9 0x2260),  -- intended U+130ED lion
   ('m', sym 0xd6 0xec),    -- intended U+13153 owl
   ('n', sym 0xe0 0xf1),    -- intended U+13216 water ripple
   ('o', sym 0xd6 0xb1),    -- intended U+13171 quail chick
   ('p', sym 0xe4 0x2122),  -- intended U+132AA stool
   ('q', sym 0xd1 0xf8),    -- intended U+1313F vulture (same as a)
   ('r', sym 0xc7 0xe3),    -- intended U+1308B mouth
   ('s', sym 0xe3 0xa5),    -- intended U+132F4 folded cloth
   ('t', sym 0xe8 0xe8),    -- intended U+133CF bread loaf
   ('u', sym 0xd6 0xb1),    -- intended U+13171 quail chick (same as o)
   ('v', sym 0xdc 0xeb),    -- intended U+13191 horned viper (same as f)
   ('w', sym 0xd6 0xb1),    -- intended U+13171 quail chick (same as o)
   ('x', sym 0xe9 0xb0),    -- intended U+133A1 basket (same as c)
   ('y', sym 0xe1 0xe5),    -- intended U+131CC double reed
   ('z', sym 0xe4 0xc9)]    -- intended U+13283 door bolt

/-- Source `self.special_chars`: punctuation table, entries in source order.
Apostrophe and double quote map to the empty string (deletion). -/
def special_chars : List (Char × List Char) :=
  [(' ', [' ']),
   ('.', sym 0xe8 0xa7),
   (',', sym 0xe8 0xa7),
   ('!', sym 0xe8 0xa7),
   ('?', sym 0xe8 0xa7),
   (':', sym 0xe8 0xa7),
   (';', sym 0xe8 0xa7),
   ('-', sym 0xe8 0xa7),
   (Char.ofNat 0x27, []),
   (Char.ofNat 0x22, [])]

/-- Source `self.numbers`: digit table, entries in source order. -/
def numbers : List (Char × List Char) :=
  [('0', sym 0xe7 0xa2),    -- intended U+133E2
   ('1', sym 0xe8 0x222b),  -- intended U+133FA
   ('2', sym 0xe8 0xaa),    -- intended U+133FB
   ('3', sym 0xe8 0xba),    -- intended U+133FC
   ('4', sym 0xe8 0x3a9),   -- intended U+133FD
   ('5', sym 0xe8 0xe6),    -- intended U+133FE
   ('6', sym 0xe8 0xf8),    -- intended U+133FF
   ('7', sym 0xea 0xc4),    -- intended U+13400
   ('8', sym 0xea 0xc5),    -- intended U+13401
   ('9', sym 0xea 0xc7)]    -- intended U+13402

/-- Source `self.symbol_descriptions`: descriptive label per output symbol. -/
def symbol_descriptions : List (List Char × List Char) :=
  [(sym 0xd1 0xf8, "Vulture (Aleph)".data),
   (sym 0xc9 0xc4, "Foot/Leg".data),
   (sym 0xe9 0xb0, "Basket".data),
   (sym 0xc7 0xdf, "Hand".data),
   (sym 0xe1 0xe3, "Reed".data),
   (sym 0xdc 0xeb, "Horned Viper".data),
   (sym 0xe9 0xba, "Jar Stand".data),
   (sym 0xe2 0xee, "Shelter/House".data),
   (sym 0xdc 0x2265, "Quail Chick".data),
   (sym 0xc9 0x2260, "Lion".data),
   (sym 0xd6 0xec, "Owl".data),
   (sym 0xe0 0xf1, "Water Ripple".data),
   (sym 0xd6 0xb1, "Quail Chick".data),
   (sym 0xe4 0x2122, "Stool".data),
   (sym 0xc7 0xe3, "Mouth".data),
   (sym 0xe3 0xa5, "Folded Cloth".data),
   (sym 0xe8 0xe8, "Bread Loaf".data),
   (sym 0xe1 0xe5, "Double Reed".data),
   (sym 0xe4 0xc9, "Door Bolt".data),
   (sym 0xe8 0xa7, "Stroke (separator)".data)]

/-- The body of the per-character loop of `convert_to_hieroglyphics`
(lines 153-164): letter table, else punctuation table, else digit table,
else whitespace becomes a space, else the stroke placeholder. -/
def resolveChar (c : Char) : List Char :=
  match List.lookup c hieroglyphic_map with
  | some h => h
  | none =>
    match List.lookup c special_chars with
    | some h => h
    | none =>
      match List.lookup c numbers with
      | some h => h
      | none => if pyIsSpace c then [' '] else STROKE

/-- The accumulation loop of `convert_to_hieroglyphics`
(`hieroglyphic_text += ...`). -/
def convertLoop (acc : List Char) : List Char → List Char
  | [] => acc
  | c :: rest => convertLoop (acc ++ resolveChar c) rest

/-- Method `convert_to_hieroglyphics` (lines 128-166), for string input: short
circuit when the stripped text is empty, otherwise lowercase and map the
per-character resolution over the text, accumulating the output. -/
def convert_to_hieroglyphics (text : List Char) : List Char :=
  if pyStrip text = [] then []
  else convertLoop [] (text.map pyLower)

/-- The arrow of the source's f-strings, exactly as stored in the file
(mojibake of U+2192). -/
def mangledArrow : List Char := [Char.ofNat 0x201a, Char.ofNat 0xdc, Char.ofNat 0xed]

/-- The apostrophe character used by the f-strings. -/
def squote : Char := Char.ofNat 0x27

/-- Source expression `self.symbol_descriptions.get(h, "Unknown symbol")`. -/
def descriptionOf (h : List Char) : List Char :=
  (List.lookup h symbol_descriptions).getD "Unknown symbol".data

/-- One iteration of the loop of `convert_with_explanation`
(lines 191-210): the emitted token and the explanation line built for one
(already lowercased) character. -/
def explainStep (c : Char) : List Char × List Char :=
  match List.lookup c hieroglyphic_map with
  | some h =>
      (h, [squote, c, squote] ++ " ".data ++ mangledArrow ++ " ".data ++ h ++
          " (".data ++ descriptionOf h ++ ")".data)
  | none =>
    match List.lookup c special_chars with
    | some h =>
        (h, [squote, c, squote] ++ " ".data ++ mangledArrow ++ " ".data ++ h ++
            " (punctuation)".data)
    | none =>
      match List.lookup c numbers with
      | some h =>
          (h, [squote, c, squote] ++ " ".data ++ mangledArrow ++ " ".data ++ h ++
              " (Egyptian numeral)".data)
      | none =>
        if pyIsSpace c then
          ([' '], "[space] ".data ++ mangledArrow ++ " [space] (word separator)".data)
        else
          (STROKE, [squote, c, squote] ++ " ".data ++ mangledArrow ++ " ".data ++
                   STROKE ++ " (unsupported ".data ++ mangledArrow ++
                   " stroke placeholder)".data)

/-- The accumulation loop of `convert_with_explanation`. -/
def explainLoop (accText : List Char) (accExp : List (List Char)) :
    List Char → List Char × List (List Char)
  | [] => (accText, accExp)
  | c :: rest =>
      explainLoop (accText ++ (explainStep c).1) (accExp ++ [(explainStep c).2]) rest

/-- Method `convert_with_explanation` (lines 168-212): same short circuit as
`convert_to_hieroglyphics`, then one explanation entry per character. -/
def convert_with_explanation (text : List Char) : List Char × List (List Char) :=
  if pyStrip text = [] then ([], [])
  else explainLoop [] [] (text.map pyLower)

/-- Method `get_character_info` (lines 214-242): single characters are described
after lowercasing, by the same precedence as conversion; any other length
yields a fixed diagnostic. -/
def get_character_info : List Char → List Char
  | [c0] =>
    let c := pyLower c0
    (match List.lookup c hieroglyphic_map with
     | some h =>
         [squote, c, squote] ++ " ".data ++ mangledArrow ++ " ".data ++ h ++
         " (".data ++ descriptionOf h ++ ") - Egyptian hieroglyphic letter".data
     | none =>
       match List.lookup c special_chars with
       | some h =>
           [squote, c, squote] ++ " ".data ++ mangledArrow ++ " ".data ++ h ++
           " (special character/punctuation)".data
       | none =>
         match List.lookup c numbers with
         | some h =>
             [squote, c, squote] ++ " ".data ++ mangledArrow ++ " ".data ++ h ++
             " (Egyptian numeral)".data
         | none =>
           if pyIsSpace c then
             [squote, c, squote] ++ " ".data ++ mangledArrow ++
             " [space] (word separator)".data
           else
             [squote, c, squote] ++
             " is not supported and will be replaced with ".data ++ STROKE ++
             " (stroke placeholder)".data)
  | _ => "Please provide a single character".data

/-- Method `batch_convert` (lines 244-254): the list comprehension
`[self.convert_to_hieroglyphics(text) for text in text_list]`. -/
def batch_convert (text_list : List (List Char)) : List (List Char) :=
  text_list.map convert_to_hieroglyphics

/-- A Python value at the boundary of the core API: either a string or a
non-string value (tagged, standing for ints, None, lists, ...). -/
inductive PyVal where
  | str : List Char → PyVal
  | nonStr : Nat → PyVal
deriving DecidableEq

/-- The single recoverable error kind of the core:
`ValueError("Input must be a string")`. -/
inductive PyErr where
  | invalidInputKind
deriving DecidableEq

/-- Method `convert_to_hieroglyphics` with its `isinstance(text, str)` guard
(lines 141-142). -/
def convert_checked : PyVal → Except PyErr (List Char)
  | .str s => .ok (convert_to_hieroglyphics s)
  | .nonStr _ => .error .invalidInputKind

/-- Method `convert_with_explanation` with its `isinstance(text, str)` guard
(lines 181-182). -/
def convert_with_explanation_checked : PyVal → Except PyErr (List Char × List (List Char))
  | .str s => .ok (convert_with_explanation s)
  | .nonStr _ => .error .invalidInputKind

/-- Method `batch_convert` over arbitrary Python values: the comprehension calls
`convert_to_hieroglyphics` element by element, and the first raised
exception propagates as the whole call's failure. -/
def batch_convert_checked : List PyVal → Except PyErr (List (List Char))
  | [] => .ok []
  | v :: vs => do
      let h ← convert_checked v
      let rest ← batch_convert_checked vs
      pure (h :: rest)

/-- Set `all_supported_chars` of `validate_text` (lines 280-285): the keys of
the three tables together with space, tab and newline.  (Set union of key
sets; membership in this list is the same predicate.) -/
def all_supported_chars : List Char :=
  (hieroglyphic_map.map Prod.fst) ++ (special_chars.map Prod.fst) ++
  (numbers.map Prod.fst) ++ [' ', Char.ofNat 0x09, Char.ofNat 0x0a]

/-- The accumulation loop of `validate_text` (lines 287-289). -/
def validateLoop (unsupported : List Char) : List Char → List Char
  | [] => unsupported
  | c :: rest =>
      if c ∉ all_supported_chars ∧ c ∉ unsupported then
        validateLoop (unsupported ++ [c]) rest
      else
        validateLoop unsupported rest

/-- Method `validate_text` (lines 269-291). -/
def validate_text (text : List Char) : Bool × List Char :=
  let unsupported := validateLoop [] (text.map pyLower)
  (unsupported.length = 0, unsupported)

/-! ## Claim-side definitions

These follow the spec's words, to be compared with the code-side
definitions above. -/

/-- The Resolution Algorithm as the spec states it: letter table first,
else punctuation table (possibly the empty string), else digit table, else
a single space for whitespace, else the placeholder. -/
def resolveSpec (c : Char) : List Char :=
  if (List.lookup c hieroglyphic_map).isSome then
    (List.lookup c hieroglyphic_map).getD []
  else if (List.lookup c special_chars).isSome then
    (List.lookup c special_chars).getD []
  else if (List.lookup c numbers).isSome then
    (List.lookup c numbers).getD []
  else if pyIsSpace c then [' ']
  else STROKE

/-- Conversion as the spec states it: empty if the trimmed text is empty,
otherwise the concatenation, in input order, of the token resolved for
each character of the lowercased text. -/
def convertSpec (text : List Char) : List Char :=
  if pyStrip text = [] then []
  else ((text.map pyLower).map resolveSpec).flatten

/-- Append an element unless it is already present (used to state
first-occurrence deduplication). -/
def insertIfNew (acc : List Char) (c : Char) : List Char :=
  if c ∈ acc then acc else acc ++ [c]

/-- First-occurrence deduplication of a list. -/
def firstDedup (l : List Char) : List Char :=
  l.foldl insertIfNew []

/-- The unsupported characters as the spec states them: the characters of
the lowercased text outside the supported set, each kept once, in
first-occurrence order. -/
def unsupportedSpec (text : List Char) : List Char :=
  firstDedup ((text.map pyLower).filter (fun c => ¬ c ∈ all_supported_chars))

/-- The resolution category of a character, as the spec's trace tags. -/
inductive Category where
  | letter
  | punctuation
  | numeral
  | whitespace
  | unsupported
deriving DecidableEq

/-- Which branch of the Resolution Algorithm fires for a character. -/
def categoryOf (c : Char) : Category :=
  if (List.lookup c hieroglyphic_map).isSome then .letter
  else if (List.lookup c special_chars).isSome then .punctuation
  else if (List.lookup c numbers).isSome then .numeral
  else if pyIsSpace c then .whitespace
  else .unsupported

/-- The single-character description as the spec states it: a formatted
sentence chosen by the category of the (already lowercased) character. -/
def charInfoSpec (c : Char) : List Char :=
  match categoryOf c with
  | .letter =>
      [squote, c, squote] ++ " ".data ++ mangledArrow ++ " ".data ++
      (List.lookup c hieroglyphic_map).getD [] ++ " (".data ++
      descriptionOf ((List.lookup c hieroglyphic_map).getD []) ++
      ") - Egyptian hieroglyphic letter".data
  | .punctuation =>
      [squote, c, squote] ++ " ".data ++ mangledArrow ++ " ".data ++
      (List.lookup c special_chars).getD [] ++
      " (special character/punctuation)".data
  | .numeral =>
      [squote, c, squote] ++ " ".data ++ mangledArrow ++ " ".data ++
      (List.lookup c numbers).getD [] ++ " (Egyptian numeral)".data
  | .whitespace =>
      [squote, c, squote] ++ " ".data ++ mangledArrow ++
      " [space] (word separator)".data
  | .unsupported =>
      [squote, c, squote] ++
      " is not supported and will be replaced with ".data ++ STROKE ++
      " (stroke placeholder)".data

/-! ## Helper lemmas -/

theorem char_eq_of_toNat {c d : Char} (h : c.toNat = d.toNat) : c = d := by
  rw [← Char.ofNat_toNat c, ← Char.ofNat_toNat d, h]

theorem resolveChar_eq_resolveSpec (c : Char) : resolveChar c = resolveSpec c := by
  unfold resolveChar resolveSpec
  cases hL : List.lookup c hieroglyphic_map with
  | some h => simp [hL]
  | none =>
    cases hS : List.lookup c special_chars with
    | some h => simp [hL, hS]
    | none =>
      cases hN : List.lookup c numbers with
      | some h => simp [hL, hS, hN]
      | none => simp [hL, hS, hN]

theorem resolveChar_funext : resolveChar = resolveSpec :=
  funext resolveChar_eq_resolveSpec

theorem convertLoop_eq (l : List Char) :
    ∀ acc : List Char, convertLoop acc l = acc ++ (l.map resolveChar).flatten := by
  induction l with
  | nil => intro acc; simp [convertLoop]
  | cons c rest ih => intro acc; simp [convertLoop, ih]

theorem explainStep_fst (c : Char) : (explainStep c).1 = resolveChar c := by
  unfold explainStep resolveChar
  cases hL : List.lookup c hieroglyphic_map with
  | some h => simp [hL]
  | none =>
    cases hS : List.lookup c special_chars with
    | some h => simp [hL, hS]
    | none =>
      cases hN : List.lookup c numbers with
      | some h => simp [hL, hS, hN]
      | none => by_cases hw : pyIsSpace c <;> simp [hL, hS, hN, hw, STROKE]

theorem explainStep_fst_funext : (fun c => (explainStep c).1) = resolveChar :=
  funext explainStep_fst

theorem explainLoop_eq (l : List Char) :
    ∀ accT : List Char, ∀ accE : List (List Char),
      explainLoop accT accE l =
        (accT ++ (l.map fun c => (explainStep c).1).flatten,
         accE ++ l.map fun c => (explainStep c).2) := by
  induction l with
  | nil => intro accT accE; simp [explainLoop]
  | cons c rest ih => intro accT accE; simp [explainLoop, ih]

theorem validateLoop_eq (l : List Char) :
    ∀ acc : List Char,
      validateLoop acc l =
        (l.filter fun c => ¬ c ∈ all_supported_chars).foldl insertIfNew acc := by
  induction l with
  | nil => intro acc; simp [validateLoop]
  | cons c rest ih =>
    intro acc
    by_cases hc : c ∈ all_supported_chars
    · simp [validateLoop, hc, ih]
    · by_cases hm : c ∈ acc
      · simp [validateLoop, hc, hm, ih, insertIfNew]
      · simp [validateLoop, hc, hm, ih, insertIfNew]

theorem foldl_insertIfNew_nodup (l : List Char) :
    ∀ acc : List Char, acc.Nodup → (l.foldl insertIfNew acc).Nodup := by
  induction l with
  | nil => intro acc h; simpa using h
  | cons c rest ih =>
    intro acc h
    simp only [List.foldl_cons]
    apply ih
    unfold insertIfNew
    split
    · exact h
    · next hc => simp [List.nodup_append, h, hc]

theorem lookup_letter_isSome :
    ∀ n : Nat, n < 0x7b → 0x61 ≤ n →
      (List.lookup (Char.ofNat n) hieroglyphic_map).isSome := by
  decide

/-! ## Claims -/

/-- C1: for every input, `convert` returns the empty string when the text
trims to empty, and otherwise the concatenation, in input order, of the
token resolved for each character of the lowercased text by the fixed
precedence (letters, then punctuation, then digits, then whitespace, then
the placeholder). -/
theorem C1_convert_follows_resolution : ∀ text : List Char,
    convert_to_hieroglyphics text = convertSpec text := by
  intro text
  unfold convert_to_hieroglyphics convertSpec
  by_cases hstrip : pyStrip text = []
  · simp [hstrip]
  · simp [hstrip, convertLoop_eq, resolveChar_funext]

/-- C2 as stated is false: a whitespace-only input short-circuits to an
empty trace, while the lowercased text is non-empty — at `" "` the trace
length is `0`, not `1`. -/
theorem C2_counterexample :
    ¬ ((convert_with_explanation [' ']).2.length = ([' '].map pyLower).length) := by
  decide

/-- C2 (amended): the output-string component of `convert_with_explanation`
always equals `convert_to_hieroglyphics`; when the input does not trim to
empty, the trace has exactly one entry per character of the lowercased
text; when it does, the trace is empty. -/
theorem C2_trace_amended : ∀ text : List Char,
    (convert_with_explanation text).1 = convert_to_hieroglyphics text
    ∧ (pyStrip text ≠ [] →
        (convert_with_explanation text).2.length = (text.map pyLower).length)
    ∧ (pyStrip text = [] → (convert_with_explanation text).2 = []) := by
  intro text
  unfold convert_with_explanation convert_to_hieroglyphics
  by_cases hstrip : pyStrip text = []
  · simp [hstrip]
  · simp [hstrip, explainLoop_eq, convertLoop_eq, explainStep_fst_funext]

theorem C2_trace_amended_witness :
    (convert_with_explanation "hi".data).1 = convert_to_hieroglyphics "hi".data
    ∧ (convert_with_explanation "hi".data).2.length = ("hi".data.map pyLower).length :=
  ⟨(C2_trace_amended "hi".data).1, (C2_trace_amended "hi".data).2.1 (by decide)⟩

theorem batch_checked_ok (xs : List (List Char)) :
    batch_convert_checked (xs.map PyVal.str) = .ok (batch_convert xs) := by
  induction xs with
  | nil => rfl
  | cons s rest ih =>
    simp [batch_convert_checked, convert_checked, ih, batch_convert, Bind.bind, Except.bind, Pure.pure, Except.pure]

theorem batch_checked_error (vs : List PyVal) :
    ∀ k : Nat, PyVal.nonStr k ∈ vs →
      batch_convert_checked vs = .error PyErr.invalidInputKind := by
  induction vs with
  | nil => intro k h; simp at h
  | cons v rest ih =>
    intro k h
    cases v with
    | nonStr j => rfl
    | str s =>
      have hm : PyVal.nonStr k ∈ rest := by
        rcases List.mem_cons.mp h with h1 | h1
        · exact absurd h1 (by simp)
        · exact h1
      simp [batch_convert_checked, convert_checked, ih k hm, Bind.bind, Except.bind]

/-- C3: `convert`, `convert_with_explanation` and `batch_convert` succeed
on every string input, and raise exactly the one error kind
(`ValueError`, the invalid-input kind) when handed a non-string value —
for batch conversion, when any element is a non-string. -/
theorem C3_invalid_input_kind :
    (∀ s : List Char,
        convert_checked (PyVal.str s) = .ok (convert_to_hieroglyphics s)
        ∧ convert_with_explanation_checked (PyVal.str s) = .ok (convert_with_explanation s))
    ∧ (∀ xs : List (List Char),
        batch_convert_checked (xs.map PyVal.str) = .ok (batch_convert xs))
    ∧ (∀ k : Nat,
        convert_checked (PyVal.nonStr k) = .error PyErr.invalidInputKind
        ∧ convert_with_explanation_checked (PyVal.nonStr k) = .error PyErr.invalidInputKind)
    ∧ (∀ vs : List PyVal, ∀ k : Nat, PyVal.nonStr k ∈ vs →
        batch_convert_checked vs = .error PyErr.invalidInputKind) := by
  refine ⟨fun s => ⟨rfl, rfl⟩, batch_checked_ok, fun k => ⟨rfl, rfl⟩, batch_checked_error⟩

theorem C3_invalid_input_kind_witness :
    batch_convert_checked [PyVal.str "hi".data, PyVal.nonStr 0] =
      .error PyErr.invalidInputKind :=
  C3_invalid_input_kind.2.2.2 [PyVal.str "hi".data, PyVal.nonStr 0] 0 (by decide)

/-- C4 as stated is false: `A` is a key of none of the three tables and is
not whitespace, yet `convert` maps it to the vulture symbol, not the
placeholder, because the input is lowercased before lookup. -/
theorem C4_counterexample :
    List.lookup 'A' hieroglyphic_map = none
    ∧ List.lookup 'A' special_chars = none
    ∧ List.lookup 'A' numbers = none
    ∧ pyIsSpace 'A' = false
    ∧ convert_to_hieroglyphics ['A'] ≠ STROKE := by
  decide

/-- C4 (amended): for every single character that is not whitespace and
whose lowercase form is a key of none of the three tables, conversion
yields exactly the placeholder stroke, and the checked entry point
succeeds (no error is raised). -/
theorem C4_unresolved_placeholder : ∀ c : Char,
    pyIsSpace c = false →
    List.lookup (pyLower c) hieroglyphic_map = none →
    List.lookup (pyLower c) special_chars = none →
    List.lookup (pyLower c) numbers = none →
    convert_to_hieroglyphics [c] = STROKE
    ∧ convert_checked (PyVal.str [c]) = .ok STROKE := by
  intro c hw hL hS hN
  have hlow : pyIsSpace (pyLower c) = false := by
    unfold pyLower
    split
    · next hA =>
      exfalso
      have hs := lookup_letter_isSome (c.toNat + 0x20) (by omega) (by omega)
      rw [show pyLower c = Char.ofNat (c.toNat + 0x20) from by unfold pyLower; simp [hA]] at hL
      rw [hL] at hs
      simp at hs
    · exact hw
  have hstrip : pyStrip [c] = [c] := by
    simp [pyStrip, List.dropWhile, hw]
  have hconv : convert_to_hieroglyphics [c] = STROKE := by
    unfold convert_to_hieroglyphics
    rw [hstrip]
    simp only [List.cons_ne_self, if_false, List.map_cons, List.map_nil]
    simp only [convertLoop, List.nil_append]
    unfold resolveChar
    rw [hL, hS, hN, hlow]
    simp
  exact ⟨hconv, by simp [convert_checked, hconv]⟩

theorem C4_unresolved_placeholder_witness :
    convert_to_hieroglyphics ['@'] = STROKE
    ∧ convert_checked (PyVal.str ['@']) = .ok STROKE :=
  C4_unresolved_placeholder '@' (by decide) (by decide) (by decide) (by decide)

/-- C5: `validate_text` lowercases the text and returns, in
first-occurrence order and without repetition, the characters outside the
union of the three tables' keys and the whitespace set
`{space, tab, newline}`, together with a boolean that is true exactly when
that list is empty; in particular `validate_text "@@@"` reports `@` once. -/
theorem C5_validate_unsupported : ∀ text : List Char,
    (validate_text text).2 = unsupportedSpec text
    ∧ (validate_text text).2.Nodup
    ∧ ((validate_text text).1 = true ↔ (validate_text text).2 = [])
    ∧ validate_text "@@@".data = (false, ['@']) := by
  intro text
  refine ⟨?_, ?_, ?_, by decide⟩
  · simp [validate_text, validateLoop_eq, unsupportedSpec, firstDedup]
  · simp only [validate_text, validateLoop_eq]
    exact foldl_insertIfNew_nodup _ [] (by simp)
  · simp [validate_text, List.length_eq_zero]

/-- C6 as stated is false: the punctuation table maps space to the
non-empty value `" "`, and that symbol has no entry in the description
table. -/
theorem C6_counterexample :
    List.lookup ' ' special_chars = some [' ']
    ∧ ([' '] : List Char) ≠ []
    ∧ List.lookup ([' '] : List Char) symbol_descriptions = none := by
  decide

/-- C6 (amended): every value of the letter table has an entry in the
description table; every non-empty value of the punctuation table other
than the space symbol has one; and the placeholder stroke's own entry
exists. -/
theorem C6_descriptions_cover :
    (hieroglyphic_map.all fun p => (List.lookup p.2 symbol_descriptions).isSome) = true
    ∧ (special_chars.all fun p =>
        p.2 = [] ∨ p.2 = [' '] ∨ (List.lookup p.2 symbol_descriptions).isSome) = true
    ∧ (List.lookup STROKE symbol_descriptions).isSome = true := by
  decide

/-- C7: for every letter, lower or upper case, conversion agrees with the
letter table's entry for the lowercased letter, and is case-insensitive. -/
theorem C7_case_insensitive : ∀ c : Char,
    (0x61 ≤ c.toNat ∧ c.toNat ≤ 0x7a) ∨ (0x41 ≤ c.toNat ∧ c.toNat ≤ 0x5a) →
    List.lookup (pyLower c) hieroglyphic_map = some (convert_to_hieroglyphics [c])
    ∧ convert_to_hieroglyphics [c] = convert_to_hieroglyphics [pyUpper c] := by
  have key : ∀ n : Nat, n < 0x7b →
      ((0x61 ≤ n ∧ n ≤ 0x7a) ∨ (0x41 ≤ n ∧ n ≤ 0x5a)) →
      List.lookup (pyLower (Char.ofNat n)) hieroglyphic_map =
        some (convert_to_hieroglyphics [Char.ofNat n])
      ∧ convert_to_hieroglyphics [Char.ofNat n] =
        convert_to_hieroglyphics [pyUpper (Char.ofNat n)] := by
    decide
  intro c h
  have hb : c.toNat < 0x7b := by rcases h with ⟨_, h2⟩ | ⟨_, h2⟩ <;> omega
  have := key c.toNat hb h
  rwa [Char.ofNat_toNat] at this

theorem C7_case_insensitive_witness :
    List.lookup (pyLower 'B') hieroglyphic_map = some (convert_to_hieroglyphics ['B'])
    ∧ convert_to_hieroglyphics ['B'] = convert_to_hieroglyphics [pyUpper 'B'] :=
  C7_case_insensitive 'B' (by decide)

/-- C8: batch conversion is exactly `convert` applied to each element
independently, preserving order and length; `["hi","yo"]` maps to the two
individual conversions; and an invalid element anywhere makes the whole
checked call fail with the single input-kind error. -/
theorem C8_batch_maps_convert :
    (∀ xs : List (List Char),
        batch_convert xs = xs.map convert_to_hieroglyphics
        ∧ (batch_convert xs).length = xs.length)
    ∧ batch_convert ["hi".data, "yo".data] =
        [convert_to_hieroglyphics "hi".data, convert_to_hieroglyphics "yo".data]
    ∧ (∀ pre post : List PyVal, ∀ k : Nat,
        batch_convert_checked (pre ++ PyVal.nonStr k :: post) =
          .error PyErr.invalidInputKind) := by
  refine ⟨fun xs => ⟨rfl, by simp [batch_convert]⟩, rfl, fun pre post k => ?_⟩
  exact batch_checked_error _ k (by simp)

theorem C8_batch_maps_convert_witness :
    batch_convert_checked [PyVal.nonStr 3] = .error PyErr.invalidInputKind :=
  C8_batch_maps_convert.2.2 [] [] 3

/-- C9: any input that is not exactly one character yields the fixed
diagnostic message (no error is raised — the function is total), and a
single character is described after lowercasing, by the same precedence
as conversion. -/
theorem C9_character_info :
    (∀ s : List Char, s.length ≠ 1 →
        get_character_info s = "Please provide a single character".data)
    ∧ (∀ c : Char, get_character_info [c] = charInfoSpec (pyLower c)) := by
  constructor
  · intro s hs
    match s with
    | [] => rfl
    | [c] => simp at hs
    | a :: b :: t => rfl
  · intro c
    unfold get_character_info charInfoSpec categoryOf
    cases hL : List.lookup (pyLower c) hieroglyphic_map with
    | some h => simp [hL]
    | none =>
      cases hS : List.lookup (pyLower c) special_chars with
      | some h => simp [hL, hS]
      | none =>
        cases hN : List.lookup (pyLower c) numbers with
        | some h => simp [hL, hS, hN]
        | none => by_cases hw : pyIsSpace (pyLower c) <;> simp [hL, hS, hN, hw]

theorem C9_character_info_witness :
    get_character_info "ab".data = "Please provide a single character".data :=
  C9_character_info.1 "ab".data (by decide)

theorem C10_concrete_whitespace :
    ∀ n ∈ pyWhitespace, n ≠ 0x20 → n ≠ 0x09 → n ≠ 0x0a →
      resolveChar (Char.ofNat n) = [' ']
      ∧ resolveChar (Char.ofNat n) ≠ STROKE
      ∧ validate_text [Char.ofNat n] = (false, [Char.ofNat n])
      ∧ convert_to_hieroglyphics ['a', Char.ofNat n] =
          convert_to_hieroglyphics ['a'] ++ [' '] := by
  decide

/-- C10: a whitespace character other than space, tab and newline (such as
carriage return or form feed) is resolved by conversion to a single space
— supported whitespace, not the placeholder — while `validate_text`
reports it as unsupported; so a false validation verdict does not imply
that conversion replaces any character with the placeholder. -/
theorem C10_whitespace_divergence : ∀ c : Char,
    pyIsSpace c = true →
    c ≠ ' ' → c ≠ Char.ofNat 0x09 → c ≠ Char.ofNat 0x0a →
    resolveChar c = [' ']
    ∧ resolveChar c ≠ STROKE
    ∧ validate_text [c] = (false, [c])
    ∧ convert_to_hieroglyphics ['a', c] = convert_to_hieroglyphics ['a'] ++ [' '] := by
  intro c h h20 h9 h10
  have hmem : c.toNat ∈ pyWhitespace := by
    have := of_decide_eq_true (by simpa [pyIsSpace] using h)
    exact this
  have := C10_concrete_whitespace c.toNat hmem
    (fun hn => h20 (char_eq_of_toNat (by rw [hn]; rfl)))
    (fun hn => h9 (char_eq_of_toNat (by rw [hn]; rfl)))
    (fun hn => h10 (char_eq_of_toNat (by rw [hn]; rfl)))
  rwa [Char.ofNat_toNat] at this

theorem C10_whitespace_divergence_witness :
    resolveChar (Char.ofNat 0x0d) = [' ']
    ∧ resolveChar (Char.ofNat 0x0d) ≠ STROKE
    ∧ validate_text [Char.ofNat 0x0d] = (false, [Char.ofNat 0x0d])
    ∧ convert_to_hieroglyphics ['a', Char.ofNat 0x0d] =
        convert_to_hieroglyphics ['a'] ++ [' '] :=
  C10_whitespace_divergence (Char.ofNat 0x0d) (by decide) (by decide) (by decide)
    (by decide)

end Hiero
